import Mathlib

/-
Verification development for the hackernews-telegram staging/graduation
pipeline.

Shallow embedding of the core modules:
  * src/publish/staging_store.py  (Redis-backed staging store + published set)
  * src/publish/pending_store.py  (pending channel-post link store with TTL)
  * src/tasks.py                  (graduation policy and the publish tick)
  * src/publish/handlers.py       (auto-forward handler, lines 432-515)

Modelling conventions:
  * Timestamps (Python floats from time.time()) are modelled as ℤ seconds.
  * The Redis key-value store is modelled as explicit pure state:
    per-key payloads are functions `key → Option value`, Redis sets are
    `List String` with set-semantics add/remove. Each Python store function
    becomes a state-passing Lean function. RedisError branches (the store
    itself being unavailable) are not modelled: operations act on the pure
    store state (the "normal operation" path of the spec).
  * Corrupt stored payloads are modelled by an explicit constructor of the
    raw-value type (`corruptJson` for undecodable JSON, `badSchema` for a
    payload from which the Article dataclass cannot be rebuilt), mirroring
    the except-branches of the Python decode paths.
  * Python truthiness on optional numbers (`if article.hn_posted_ts:`,
    `last_checked_ts or time.time()`) is modelled faithfully: `some 0` is
    falsy, exactly as in the source.
-/

/-! ## Configuration constants (src/config.py) -/

/-- PENDING_REDIS_TTL = 15 * SECONDS_IN_MINUTE (src/config.py). -/
def PENDING_REDIS_TTL : Int := 15 * 60

/-- ARTICLE_MAX_WAIT_SECONDS = 5 * SECONDS_IN_HOUR (src/config.py). -/
def ARTICLE_MAX_WAIT_SECONDS : Int := 5 * 3600

/-- ARTICLE_METRIC_REFRESH_SECONDS = 10 * SECONDS_IN_MINUTE (src/config.py). -/
def ARTICLE_METRIC_REFRESH_SECONDS : Int := 10 * 60

/-- ARTICLE_MIN_POINTS (src/config.py). -/
def ARTICLE_MIN_POINTS : Int := 50

/-- ARTICLE_MIN_COMMENTS (src/config.py). -/
def ARTICLE_MIN_COMMENTS : Int := 50

/-- ARTICLE_AGE_FLOOR_POINTS (src/config.py). -/
def ARTICLE_AGE_FLOOR_POINTS : Int := 10

/-- ARTICLE_AGE_FLOOR_COMMENTS (src/config.py). -/
def ARTICLE_AGE_FLOOR_COMMENTS : Int := 10

/-! ## Data model (src/content/reader.py) -/

/-- Article dataclass from src/content/reader.py, lines 13-25. -/
structure Article where
  article_id : String
  title : String
  url : String
  discussion_url : String
  summary : String
  image_url : Option String
  highlights : List String
  top_comments : List String
  references : List (String × String)
  hn_score : Option Int
  hn_comment_count : Option Int
  hn_posted_ts : Option Int
deriving DecidableEq

/-- StagedArticle dataclass from src/publish/staging_store.py, lines 25-29. -/
structure StagedArticle where
  article : Article
  staged_at : Int
  last_checked_ts : Int
deriving DecidableEq

/-! ## Staging store state (src/publish/staging_store.py)

The Redis keyspace used by the staging store:
  * `staged:<id>`   — JSON payload {article, staged_at, last_checked_ts};
  * `staged:index`  — set of staged ids;
  * `published`     — set of published ids.
-/

/-- Raw contents of a `staged:<id>` key. A well-formed payload carries the
article plus both timestamps; `corruptJson` stands for bytes that fail
`json.loads`, and `badSchema` for JSON whose article dict cannot be turned
back into an `Article` (the `_deserialize_article` failure path). -/
inductive RawStaged
  | ok (article : Article) (staged_at : Int) (last_checked_ts : Int)
  | corruptJson
  | badSchema
deriving DecidableEq

/-- Pure model of the Redis state touched by src/publish/staging_store.py. -/
structure StagingState where
  payloads : String → Option RawStaged
  index : List String
  published : List String

/-- Redis SADD on a modelled set: no-op when the member is present. -/
def sadd (s : List String) (member : String) : List String :=
  if member ∈ s then s else member :: s

/-- Redis SREM on a modelled set. -/
def srem (s : List String) (member : String) : List String :=
  s.filter (fun x => x ≠ member)

/-- The `_persist` helper (staging_store.py lines 75-105): one pipeline that
sets the `staged:<id>` payload and SADDs the id into the staging index, then
returns the resulting StagedArticle record. -/
def _persist (s : StagingState) (article : Article)
    (staged_at last_checked_ts : Int) : StagedArticle × StagingState :=
  (⟨article, staged_at, last_checked_ts⟩,
   { s with
      payloads := fun k =>
        if k = article.article_id then
          some (RawStaged.ok article staged_at last_checked_ts)
        else s.payloads k
      index := sadd s.index article.article_id })

/-- `stage_article` (staging_store.py lines 108-120). `now` is the resolved
timestamp `float(now or time.time())`. -/
def stage_article (s : StagingState) (article : Article) (now : Int) :
    StagedArticle × StagingState :=
  _persist s article now now

/-- Python `x or time.time()` on an optional float: `None` and `0` both fall
back to the wall clock. -/
def orWallClock (value : Option Int) (wall_now : Int) : Int :=
  match value with
  | some t => if t ≠ 0 then t else wall_now
  | none => wall_now

/-- `update_staged_article` (staging_store.py lines 123-151): rebuild the
article with any newly observed engagement fields and persist it with the
original `staged_at` and `last_checked_ts = checked_at`. Note the function
performs no membership check: `_persist` writes unconditionally. -/
def update_staged_article (s : StagingState) (staged : StagedArticle)
    (article : Option Article) (score comment_count hn_time : Option Int)
    (last_checked_ts : Option Int) (wall_now : Int) :
    StagedArticle × StagingState :=
  let checked_at := orWallClock last_checked_ts wall_now
  let base_article := article.getD staged.article
  let updated_article :=
    { base_article with
        hn_score := match score with
          | some v => some v
          | none => base_article.hn_score
        hn_comment_count := match comment_count with
          | some v => some v
          | none => base_article.hn_comment_count
        hn_posted_ts := match hn_time with
          | some v => some v
          | none => base_article.hn_posted_ts }
  _persist s updated_article staged.staged_at checked_at

/-- `list_staged_articles` (staging_store.py lines 154-216). For each id in
the index: a missing payload is pruned from the index (SREM) and skipped; a
payload that fails JSON decoding or Article reconstruction is skipped with
only a log line (the loop `continue`s, so the index entry survives); a
well-formed payload yields a StagedArticle. The result is sorted by
`staged_at` ascending (Python's stable `list.sort`). -/
def list_staged_articles (s : StagingState) :
    List StagedArticle × StagingState :=
  let staged := s.index.filterMap (fun article_id =>
    match s.payloads article_id with
    | some (RawStaged.ok a t l) => some (⟨a, t, l⟩ : StagedArticle)
    | _ => none)
  let new_index := s.index.filter (fun article_id =>
    (s.payloads article_id).isSome)
  (List.insertionSort (fun x y => x.staged_at ≤ y.staged_at) staged,
   { s with index := new_index })

/-- `is_published` (staging_store.py lines 250-259). -/
def is_published (s : StagingState) (article_id : String) : Bool :=
  article_id ∈ s.published

/-- `mark_published` (staging_store.py lines 262-284): one pipeline deleting
the `staged:<id>` payload, SREMing the id from the staging index and SADDing
it into the published set. Returns True (the RedisError branch is the
unmodelled store-failure path). -/
def mark_published (s : StagingState) (article_id : String) : StagingState :=
  { payloads := fun k => if k = article_id then none else s.payloads k
    index := srem s.index article_id
    published := sadd s.published article_id }

/-- `ensure_published` (staging_store.py lines 287-298): bulk SADD into the
published set; staging payloads and index are untouched. -/
def ensure_published (s : StagingState) (article_ids : List String) :
    StagingState :=
  { s with published := article_ids.foldl sadd s.published }

/-- `clear_stage` (staging_store.py lines 301-314): delete the payload and
SREM the index entry, leaving the published set alone. -/
def clear_stage (s : StagingState) (article_id : String) : StagingState :=
  { s with
      payloads := fun k => if k = article_id then none else s.payloads k
      index := srem s.index article_id }

/-- Disjointness of the staging index and the published set (spec §3 and
§8: an id is never simultaneously present in StagingStore and
PublishedSet). -/
def DisjointStores (s : StagingState) : Prop :=
  ∀ id ∈ s.index, id ∉ s.published

instance (s : StagingState) : Decidable (DisjointStores s) :=
  inferInstanceAs (Decidable (∀ id ∈ s.index, id ∉ s.published))

/-- A store is well-keyed when every well-formed `staged:<id>` payload
holds the article whose id is `id` — the invariant maintained by
`_persist`, which always keys the write by the article's own id. -/
def WellKeyed (s : StagingState) : Prop :=
  ∀ id a t l, s.payloads id = some (RawStaged.ok a t l) → a.article_id = id

/-! ## Pending link store (src/publish/pending_store.py) -/

/-- PendingPost dataclass (pending_store.py lines 20-26). -/
structure PendingPost where
  article : Article
  discussion_chat_id : Option Int
deriving DecidableEq

/-- Raw contents of a `pending:<channel_post_id>` key: either a payload that
round-trips back into a PendingPost, or one of the decode-failure shapes of
`pop_pending_post` (undecodable JSON; missing/empty article dict; article
dict that raises TypeError on reconstruction). All failure shapes make the
pop return None, so they are folded into two constructors. -/
inductive RawPending
  | ok (post : PendingPost)
  | corruptJson
  | badSchema
deriving DecidableEq

/-- Pure model of the Redis state behind src/publish/pending_store.py: each
entry carries its stored value and its absolute expiry time (SET ex=TTL).
An entry whose expiry has passed behaves as absent. -/
structure PendingState where
  entries : Int → Option (RawPending × Int)

/-- `store_pending_post` (pending_store.py lines 44-78): SET the payload
keyed by the channel post id with expiry `now + PENDING_REDIS_TTL`,
overwriting any prior entry. Returns True (the RedisError branch is the
unmodelled store-failure path). -/
def store_pending_post (s : PendingState) (channel_post_id : Int)
    (article : Article) (discussion_chat_id : Option Int) (now : Int) :
    PendingState :=
  { entries := fun k =>
      if k = channel_post_id then
        some (RawPending.ok ⟨article, discussion_chat_id⟩,
              now + PENDING_REDIS_TTL)
      else s.entries k }

/-- `pop_pending_post` (pending_store.py lines 81-149): GET the key (an
expired key reads as nil — Redis has dropped it, modelled by pruning it
here), then DELETE it, then decode. Decode failures return None but the
key is already gone. -/
def pop_pending_post (s : PendingState) (channel_post_id : Int) (now : Int) :
    Option PendingPost × PendingState :=
  match s.entries channel_post_id with
  | none => (none, s)
  | some (raw, expires_at) =>
    let removed : PendingState :=
      { entries := fun k =>
          if k = channel_post_id then none else s.entries k }
    if expires_at ≤ now then
      (none, removed)
    else
      match raw with
      | RawPending.ok post => (some post, removed)
      | RawPending.corruptJson => (none, removed)
      | RawPending.badSchema => (none, removed)

/-! ## Graduation policy (src/tasks.py) -/

/-- The `extras` dict built by `_should_graduate` (tasks.py lines 169-173):
`score` and `comments` are always ints there (`or 0` defaults), while
`age_seconds` stays None when the posted timestamp is unknown. -/
structure GradExtras where
  score : Int
  comments : Int
  age_seconds : Option Int
deriving DecidableEq

/-- `_should_graduate` (tasks.py lines 152-175). Python truthiness: the age
is computed only under `if article.hn_posted_ts:`, so a missing or zero
posted timestamp leaves `age_seconds = None`. -/
def _should_graduate (staged : StagedArticle) (now : Int) :
    Bool × Option String × GradExtras :=
  let article := staged.article
  let score := article.hn_score.getD 0
  let comments := article.hn_comment_count.getD 0
  let age_seconds : Option Int :=
    match article.hn_posted_ts with
    | some ts => if ts ≠ 0 then some (max 0 (now - ts)) else none
    | none => none
  let reason : Option String :=
    if score ≥ ARTICLE_MIN_POINTS then some "score"
    else if comments ≥ ARTICLE_MIN_COMMENTS then some "comments"
    else
      match age_seconds with
      | some age =>
        if age ≥ ARTICLE_MAX_WAIT_SECONDS then some "age" else none
      | none => none
  (reason.isSome, reason, ⟨score, comments, age_seconds⟩)

/-- One entry of the `graduates` list built in `publish_latest`
(tasks.py lines 300-304): the staged record, its non-None reason, and the
extras dict. -/
structure Graduate where
  staged : StagedArticle
  reason : String
  extras : GradExtras
deriving DecidableEq

/-- Graduate collection in `publish_latest` (tasks.py lines 300-304): keep
every staged record whose `_should_graduate` verdict is truthy in both
components. -/
def collectGraduates (staged_list : List StagedArticle) (now : Int) :
    List Graduate :=
  staged_list.filterMap (fun staged =>
    match _should_graduate staged now with
    | (true, some reason, extras) => some ⟨staged, reason, extras⟩
    | _ => none)

/-- Ordering used by `graduates.sort(key=lambda item: item[0].staged_at)`
(tasks.py line 310). -/
def gradLE (a b : Graduate) : Prop :=
  a.staged.staged_at ≤ b.staged.staged_at

instance : DecidableRel gradLE :=
  fun a b => inferInstanceAs (Decidable (a.staged.staged_at ≤ b.staged.staged_at))

instance : IsTotal Graduate gradLE :=
  ⟨fun a b => Int.le_total a.staged.staged_at b.staged.staged_at⟩

instance : IsTrans Graduate gradLE :=
  ⟨fun _ _ _ h1 h2 => le_trans h1 h2⟩

/-- `graduates.sort(...)` (tasks.py line 310): Python's sort is stable;
insertion sort is the stable sort used as its model. -/
def sortGraduates (graduates : List Graduate) : List Graduate :=
  List.insertionSort gradLE graduates

/-! ## The publish phase of the tick (src/tasks.py `_publish_graduates`) -/

/-- Outcome of the `send_article_bundle` call (tasks.py lines 212-218): it
raises, or returns a Telegram message dict (carrying an optional message_id
and an optional chat.linked_chat_id), or returns a non-dict value. -/
inductive PublishResult
  | raiseExc
  | okDict (message_id : Option Int) (linked_chat_id : Option Int)
  | okOther
deriving DecidableEq

/-- Environment-derived configuration consumed by the tick and the
handlers: TG_CHANNEL_ID / TG_DISCUSSION_ID (src/config.py). -/
structure Config where
  channelId : Option Int
  discussionId : Option Int
deriving DecidableEq

/-- Oracles for the two fallible side effects inside the graduate loop:
the Telegram publish call and the pending-store write (which returns False
on RedisError). -/
structure Effects where
  publishResult : Article → PublishResult
  storePendingOk : Int → Article → Bool

/-- Combined mutable state the publish phase acts on. -/
structure SysState where
  staging : StagingState
  pending : PendingState

/-- Observable events of the graduate loop, in emission order. -/
inductive Event
  | publishAttempted (article_id : String)
  | publishSucceeded (article_id : String)
  | pendingStored (channel_post_id : Int) (article_id : String)
  | markedPublished (article_id : String)
deriving DecidableEq

/-- Loop body of `_publish_graduates` (tasks.py lines 183-266) for one
graduate, split as a state transformer plus its event trace (the branch
taken never inspects the store state, only the graduate and the oracles).
Branches:
  * age-floor discard: `mark_published` directly, no publish side effect;
  * publish raises: nothing committed, the record stays staged;
  * publish succeeds: optionally `store_pending_post` (when a message id is
    present and the write succeeds), then `mark_published` regardless. -/
def graduateStep (cfg : Config) (eff : Effects) (now : Int) (g : Graduate) :
    (SysState → SysState) × List Event :=
  let article := g.staged.article
  let score_val := g.extras.score
  let comments_val := g.extras.comments
  if g.reason = "age" ∧ score_val < ARTICLE_AGE_FLOOR_POINTS ∧
      comments_val < ARTICLE_AGE_FLOOR_COMMENTS then
    (fun st => { st with staging := mark_published st.staging article.article_id },
     [Event.markedPublished article.article_id])
  else
    match eff.publishResult article with
    | PublishResult.raiseExc =>
      (fun st => st, [Event.publishAttempted article.article_id])
    | PublishResult.okDict message_id linked_chat_id =>
      let discussion_target :=
        match cfg.discussionId with
        | some d => some d
        | none => linked_chat_id
      match message_id with
      | some channel_post_id =>
        if eff.storePendingOk channel_post_id article then
          (fun st =>
            { staging := mark_published st.staging article.article_id
              pending := store_pending_post st.pending channel_post_id
                article discussion_target now },
           [Event.publishAttempted article.article_id,
            Event.publishSucceeded article.article_id,
            Event.pendingStored channel_post_id article.article_id,
            Event.markedPublished article.article_id])
        else
          (fun st => { st with staging := mark_published st.staging article.article_id },
           [Event.publishAttempted article.article_id,
            Event.publishSucceeded article.article_id,
            Event.markedPublished article.article_id])
      | none =>
        (fun st => { st with staging := mark_published st.staging article.article_id },
         [Event.publishAttempted article.article_id,
          Event.publishSucceeded article.article_id,
          Event.markedPublished article.article_id])
    | PublishResult.okOther =>
      (fun st => { st with staging := mark_published st.staging article.article_id },
       [Event.publishAttempted article.article_id,
        Event.publishSucceeded article.article_id,
        Event.markedPublished article.article_id])

/-- One iteration of `_publish_graduates`, applied to the current state. -/
def processGraduate (cfg : Config) (eff : Effects) (now : Int)
    (st : SysState) (g : Graduate) : SysState × List Event :=
  ((graduateStep cfg eff now g).1 st, (graduateStep cfg eff now g).2)

/-- `_publish_graduates` (tasks.py lines 178-266): process the graduate
list front to back, threading the store state and concatenating traces. -/
def _publish_graduates (cfg : Config) (eff : Effects) (now : Int) :
    SysState → List Graduate → SysState × List Event
  | st, [] => (st, [])
  | st, g :: rest =>
    let step := processGraduate cfg eff now st g
    let tail := _publish_graduates cfg eff now step.1 rest
    (tail.1, step.2 ++ tail.2)

/-- Tail of `publish_latest` (tasks.py lines 300-311): collect graduates
from the tick's staged records, sort them by `staged_at` ascending, and
hand them to `_publish_graduates`. -/
def publish_latest_graduation (cfg : Config) (eff : Effects) (now : Int)
    (st : SysState) (staged_list : List StagedArticle) :
    SysState × List Event :=
  _publish_graduates cfg eff now st
    (sortGraduates (collectGraduates staged_list now))

/-- Composite per-record graduation decision: `_should_graduate` combined
with the age-floor branch at the top of the `_publish_graduates` loop body
(tasks.py lines 186-211). -/
inductive Decision
  | keep
  | publish (reason : String)
  | discard
deriving DecidableEq

/-- The decision the code commits for a single staged record: `keep` when
`_should_graduate` yields no reason, otherwise the age-floor refinement of
the reported reason (tasks.py lines 186-211; the `_int_or_none` fallbacks
there are inert because `_should_graduate` always places ints in extras). -/
def decisionOfCode (staged : StagedArticle) (now : Int) : Decision :=
  match _should_graduate staged now with
  | (_, some reason, extras) =>
    if reason = "age" ∧ extras.score < ARTICLE_AGE_FLOOR_POINTS ∧
        extras.comments < ARTICLE_AGE_FLOOR_COMMENTS then
      Decision.discard
    else
      Decision.publish reason
  | (_, none, _) => Decision.keep

/-- Modelled from the spec: the reference graduation policy of spec §4.3 /
claim C2, with "postedAt is known" read as the field being present. -/
def decideSpec (staged : StagedArticle) (now : Int) : Decision :=
  let a := staged.article
  let score := a.hn_score.getD 0
  let comments := a.hn_comment_count.getD 0
  if score ≥ ARTICLE_MIN_POINTS then Decision.publish "score"
  else if comments ≥ ARTICLE_MIN_COMMENTS then Decision.publish "comments"
  else
    match a.hn_posted_ts with
    | some postedAt =>
      if now - postedAt ≥ ARTICLE_MAX_WAIT_SECONDS then
        if score < ARTICLE_AGE_FLOOR_POINTS ∧
            comments < ARTICLE_AGE_FLOOR_COMMENTS then
          Decision.discard
        else Decision.publish "age"
      else Decision.keep
    | none => Decision.keep

/-- Modelled from the spec, amended: identical to `decideSpec` except that
the age branch requires the posted timestamp to be known AND nonzero,
matching the code's truthiness test `if article.hn_posted_ts:`. -/
def decideSpecAmended (staged : StagedArticle) (now : Int) : Decision :=
  let a := staged.article
  let score := a.hn_score.getD 0
  let comments := a.hn_comment_count.getD 0
  if score ≥ ARTICLE_MIN_POINTS then Decision.publish "score"
  else if comments ≥ ARTICLE_MIN_COMMENTS then Decision.publish "comments"
  else
    match a.hn_posted_ts with
    | some postedAt =>
      if postedAt ≠ 0 then
        if now - postedAt ≥ ARTICLE_MAX_WAIT_SECONDS then
          if score < ARTICLE_AGE_FLOOR_POINTS ∧
              comments < ARTICLE_AGE_FLOOR_COMMENTS then
            Decision.discard
          else Decision.publish "age"
        else Decision.keep
      else Decision.keep
    | none => Decision.keep

/-! ## Metric-refresh gating (src/tasks.py `_refresh_metrics`) -/

/-- Refresh-batch selection of `_refresh_metrics` (tasks.py lines 115-119):
collect the ids of the staged map whose last check is at least
ARTICLE_METRIC_REFRESH_SECONDS old. -/
def refresh_ids (staged_map : List (String × StagedArticle)) (now : Int) :
    List String :=
  (staged_map.filter (fun p =>
    now - p.2.last_checked_ts ≥ ARTICLE_METRIC_REFRESH_SECONDS)).map Prod.fst

/-! ## The auto-forward handler (src/publish/handlers.py lines 432-515) -/

/-- The message fields `handle_automatic_forward` reads. The forward_origin
dict is flattened into its `type` and `message_id` entries (both absent when
the dict is missing or empty). -/
structure TgMessage where
  is_automatic_forward : Bool
  chat_id : Int
  sender_chat_id : Option Int
  forward_origin_type : Option String
  forward_origin_message_id : Option Int
  forward_from_message_id : Option Int
  message_thread_id : Option Int
  message_id : Option Int
deriving DecidableEq

/-- Source-channel guard (handlers.py lines 450-456): reject when a channel
id is configured and the sender chat does not match it. -/
def channel_guard_fails (cfg : Config) (msg : TgMessage) : Bool :=
  match cfg.channelId with
  | some c => msg.sender_chat_id ≠ some c
  | none => false

/-- Origin message-id resolution (handlers.py lines 458-468): prefer
forward_origin.message_id when the origin type is "channel", falling back
to forward_from_message_id. -/
def resolve_origin (msg : TgMessage) : Option Int :=
  let from_origin : Option Int :=
    if msg.forward_origin_type = some "channel" then
      msg.forward_origin_message_id
    else none
  match from_origin with
  | some v => some v
  | none => msg.forward_from_message_id

/-- `handle_automatic_forward` (handlers.py lines 432-515), with the
`send_comment_bundle` side effect abstracted as a success flag. On claim
success and send failure the pending link is re-registered under the same
channel-post id. -/
def handle_automatic_forward (cfg : Config) (sendCommentOk : Bool)
    (msg : TgMessage) (s : PendingState) (now : Int) : Bool × PendingState :=
  if !msg.is_automatic_forward then (false, s)
  else if channel_guard_fails cfg msg then (false, s)
  else
    match resolve_origin msg with
    | none => (false, s)
    | some origin_msg_id =>
      match pop_pending_post s origin_msg_id now with
      | (none, s1) => (false, s1)
      | (some pending, s1) =>
        if sendCommentOk then (true, s1)
        else
          (false,
           store_pending_post s1 origin_msg_id pending.article
             pending.discussion_chat_id now)

/-! ## Concrete sample data used by witnesses and counterexamples -/

/-- A minimal article with id "7" and no engagement metrics yet. -/
def artSeven : Article :=
  { article_id := "7", title := "t", url := "u", discussion_url := "d"
    summary := "s", image_url := none, highlights := [], top_comments := []
    references := [], hn_score := none, hn_comment_count := none
    hn_posted_ts := none }

/-- artSeven with a score past ARTICLE_MIN_POINTS. -/
def artSixty : Article :=
  { artSeven with hn_score := some 60 }

/-- A second high-score article with a different id. -/
def artSixtyB : Article :=
  { artSeven with article_id := "8", hn_score := some 60 }

/-- artSeven with a posted timestamp of exactly zero. -/
def artZeroTs : Article :=
  { artSeven with hn_posted_ts := some 0 }

/-- The empty staging store. -/
def state0 : StagingState :=
  { payloads := fun _ => none, index := [], published := [] }

/-- A staging store holding one staged id and one published id. -/
def stateA : StagingState :=
  { payloads := fun k =>
      if k = "1" then some (RawStaged.ok artSeven 5 5) else none
    index := ["1"], published := ["2"] }

/-- A staging store whose only index entry points at corrupt bytes. -/
def stateCorrupt : StagingState :=
  { payloads := fun k => if k = "1" then some RawStaged.corruptJson else none
    index := ["1"], published := [] }

/-- An in-memory staged record for artSeven. -/
def stagedSeven : StagedArticle := ⟨artSeven, 5, 5⟩

/-- Staged record for artSixty, staged early. -/
def stagedEarly : StagedArticle := ⟨artSixty, 1, 0⟩

/-- Staged record for artSixtyB, staged later than stagedEarly. -/
def stagedLate : StagedArticle := ⟨artSixtyB, 2, 0⟩

/-- Staged record whose article has a zero posted timestamp. -/
def stagedZeroTs : StagedArticle := ⟨artZeroTs, 0, 0⟩

/-- Graduate entry produced for stagedEarly at now = 0. -/
def gradEarly : Graduate := ⟨stagedEarly, "score", ⟨60, 0, none⟩⟩

/-- Graduate entry produced for stagedLate at now = 0. -/
def gradLate : Graduate := ⟨stagedLate, "score", ⟨60, 0, none⟩⟩

/-- The empty pending store. -/
def pstate0 : PendingState := ⟨fun _ => none⟩

/-- A pending link for artSeven targeting discussion chat 10. -/
def pendA : PendingPost := ⟨artSeven, some 10⟩

/-- A pending store holding pendA under channel post 5, expiring at 900. -/
def pstate1 : PendingState :=
  ⟨fun k => if k = 5 then some (RawPending.ok pendA, 900) else none⟩

/-- Configuration with no channel and no discussion id set. -/
def cfg0 : Config := ⟨none, none⟩

/-- Effects oracle whose publish call always raises. -/
def effRaise : Effects := ⟨fun _ => PublishResult.raiseExc, fun _ _ => true⟩

/-- Effects oracle whose publish call always succeeds with message id 77. -/
def effOk : Effects :=
  ⟨fun _ => PublishResult.okDict (some 77) none, fun _ _ => true⟩

/-- Combined empty system state. -/
def sys0 : SysState := ⟨state0, pstate0⟩

/-- A well-formed auto-forward message whose channel origin is post 5. -/
def msgAuto : TgMessage :=
  { is_automatic_forward := true, chat_id := 100, sender_chat_id := none
    forward_origin_type := some "channel", forward_origin_message_id := some 5
    forward_from_message_id := none, message_thread_id := none
    message_id := some 42 }

/-! ## Helper lemmas on the modelled Redis sets -/

theorem mem_sadd {l : List String} {x member : String} :
    x ∈ sadd l member ↔ x = member ∨ x ∈ l := by
  unfold sadd
  by_cases h : member ∈ l
  · simp only [if_pos h]
    constructor
    · exact fun hx => Or.inr hx
    · rintro (rfl | hx)
      · exact h
      · exact hx
  · simp [if_neg h, List.mem_cons]

theorem mem_srem {l : List String} {x member : String} :
    x ∈ srem l member ↔ x ∈ l ∧ x ≠ member := by
  simp [srem, List.mem_filter]

theorem mem_foldl_sadd {ids pub : List String} {x : String} :
    x ∈ ids.foldl sadd pub ↔ x ∈ pub ∨ x ∈ ids := by
  induction ids generalizing pub with
  | nil => simp
  | cons y ys ih =>
    simp only [List.foldl_cons, ih, mem_sadd, List.mem_cons]
    tauto

theorem sadd_idem (l : List String) (m : String) :
    sadd (sadd l m) m = sadd l m := by
  by_cases h : m ∈ l
  · simp [sadd, h]
  · simp [sadd, h]

theorem srem_idem (l : List String) (m : String) :
    srem (srem l m) m = srem l m := by
  unfold srem
  rw [List.filter_filter]
  congr 1
  funext a
  exact Bool.and_self _

/-! ## Claim C1 — staging/published disjointness -/

/-- C1 (counterexample): the claim "every operation (stage_article,
mark_published, ensure_published, clear_stage) preserves disjointness" is
false as stated: starting from the empty (disjoint) store, seeding id "7"
as published and then staging an article with id "7" leaves "7" in both
sets, and likewise staging first and then bulk-seeding the same id; neither
stage_article nor ensure_published checks the other set. -/
theorem stage_published_disjoint_cex :
    DisjointStores state0
  ∧ ¬ DisjointStores (stage_article (ensure_published state0 ["7"]) artSeven 0).2
  ∧ ¬ DisjointStores (ensure_published (stage_article state0 artSeven 0).2 ["7"]) := by
  refine ⟨by decide, ?_, ?_⟩
  · intro h
    exact absurd (by decide : ("7" : String) ∈
      (stage_article (ensure_published state0 ["7"]) artSeven 0).2.published)
      (h "7" (by decide))
  · intro h
    exact absurd (by decide : ("7" : String) ∈
      (ensure_published (stage_article state0 artSeven 0).2 ["7"]).published)
      (h "7" (by decide))

/-- C1 (amended): disjointness of the staging index and the published set is
preserved by mark_published and clear_stage unconditionally, by
stage_article provided the staged id is not already published (the guard
`_stage_new_articles` enforces via is_published), and by ensure_published
provided none of the seeded ids is currently staged; moreover the published
set is monotone under all four operations, so once an id is published it
stays published and — under the stated guards — never re-enters the
staging index. -/
theorem staging_published_disjoint_preserved (s : StagingState)
    (hd : DisjointStores s) :
    (∀ id, DisjointStores (mark_published s id))
  ∧ (∀ id, DisjointStores (clear_stage s id))
  ∧ (∀ a now, a.article_id ∉ s.published →
      DisjointStores (stage_article s a now).2)
  ∧ (∀ ids, (∀ id ∈ ids, id ∉ s.index) →
      DisjointStores (ensure_published s ids))
  ∧ (∀ id, id ∈ s.published →
      (∀ id2, id ∈ (mark_published s id2).published)
    ∧ (∀ id2, id ∈ (clear_stage s id2).published)
    ∧ (∀ a now, id ∈ (stage_article s a now).2.published)
    ∧ (∀ ids, id ∈ (ensure_published s ids).published)) := by
  refine ⟨?_, ?_, ?_, ?_, ?_⟩
  · intro id x hx hpub
    rw [show (mark_published s id).index = srem s.index id from rfl] at hx
    rw [show (mark_published s id).published = sadd s.published id from rfl] at hpub
    obtain ⟨hxl, hxne⟩ := mem_srem.1 hx
    rcases mem_sadd.1 hpub with rfl | hxp
    · exact hxne rfl
    · exact hd x hxl hxp
  · intro id x hx hpub
    rw [show (clear_stage s id).index = srem s.index id from rfl] at hx
    exact hd x (mem_srem.1 hx).1 hpub
  · intro a now hguard x hx hpub
    rw [show (stage_article s a now).2.index = sadd s.index a.article_id from rfl] at hx
    rcases mem_sadd.1 hx with rfl | hxl
    · exact hguard hpub
    · exact hd x hxl hpub
  · intro ids hguard x hx hpub
    rw [show (ensure_published s ids).published = ids.foldl sadd s.published from rfl] at hpub
    rcases mem_foldl_sadd.1 hpub with hxp | hxids
    · exact hd x hx hxp
    · exact hguard x hxids hx
  · intro id hid
    refine ⟨?_, ?_, ?_, ?_⟩
    · intro id2
      exact mem_sadd.2 (Or.inr hid)
    · intro id2
      exact hid
    · intro a now
      exact hid
    · intro ids
      exact mem_foldl_sadd.2 (Or.inl hid)

/-- C1 (witness): the amended preservation theorem applied at stateA. -/
theorem staging_published_disjoint_preserved_witness :
    DisjointStores (ensure_published stateA ["7"]) :=
  (staging_published_disjoint_preserved stateA (by decide)).2.2.2.1 ["7"]
    (by decide)

/-! ## Claim C8 — mark_published is idempotent -/

/-- C8: mark_published is idempotent: marking an id published a second time
leaves the whole staging-store state (payloads, staging index and published
set) exactly as the first call left it. -/
theorem mark_published_idempotent (s : StagingState) (article_id : String) :
    mark_published (mark_published s article_id) article_id =
      mark_published s article_id := by
  unfold mark_published
  simp only [StagingState.mk.injEq]
  refine ⟨?_, ?_, ?_⟩
  · funext k
    by_cases h : k = article_id <;> simp [h]
  · exact srem_idem s.index article_id
  · exact sadd_idem s.published article_id

/-! ## Claim C3 — pending links are claimed at most once -/

/-- C3: pop_pending_post returns a registered link at most once: when a pop
returns the link, any later pop of the same id on the resulting state
returns absent; popping an id with no entry returns absent; and popping an
entry whose expiry has passed returns absent. -/
theorem pop_pending_post_exactly_once (s : PendingState) (x : Int) :
    (∀ now now2 p, (pop_pending_post s x now).1 = some p →
      (pop_pending_post (pop_pending_post s x now).2 x now2).1 = none)
  ∧ (∀ now, s.entries x = none → (pop_pending_post s x now).1 = none)
  ∧ (∀ now raw t, s.entries x = some (raw, t) → t ≤ now →
      (pop_pending_post s x now).1 = none) := by
  refine ⟨?_, ?_, ?_⟩
  · intro now now2 p hp
    cases hentry : s.entries x with
    | none =>
      rw [pop_pending_post, hentry] at hp
      cases hp
    | some rawt =>
      obtain ⟨raw, expires_at⟩ := rawt
      by_cases hexp : expires_at ≤ now
      · simp only [pop_pending_post, hentry, if_pos hexp] at hp
        cases hp
      · have hstate : (pop_pending_post s x now).2 =
            ⟨fun k => if k = x then none else s.entries k⟩ := by
          cases raw <;> simp [pop_pending_post, hentry, if_neg hexp]
        rw [hstate]
        simp [pop_pending_post]
  · intro now hnone
    rw [pop_pending_post, hnone]
  · intro now raw t hentry hexp
    rw [pop_pending_post, hentry]
    simp [if_pos hexp]

/-- C3 (witness): popping channel post 5 twice from pstate1 yields the link
once and then absent. -/
theorem pop_pending_post_exactly_once_witness :
    (pop_pending_post (pop_pending_post pstate1 5 0).2 5 0).1 = none :=
  (pop_pending_post_exactly_once pstate1 5).1 0 0 pendA (by decide)

/-! ## Claim C2 — graduation decision vs the reference policy -/

theorem max_zero_ge_iff {d c : Int} (hc : 0 < c) : c ≤ max 0 d ↔ c ≤ d := by
  rw [le_max_iff]
  constructor
  · rintro (h | h)
    · omega
    · exact h
  · exact fun h => Or.inr h

theorem decisionOfCode_publish_of_reason_ne_age (staged : StagedArticle)
    (now : Int) (r : String)
    (hr : (_should_graduate staged now).2.1 = some r) (hne : r ≠ "age") :
    decisionOfCode staged now = Decision.publish r := by
  unfold decisionOfCode
  rcases hsg : _should_graduate staged now with ⟨b, ro, ex⟩
  rw [hsg] at hr
  simp only at hr
  subst hr
  simp [hne]

theorem decisionOfCode_eq_amended (staged : StagedArticle) (now : Int) :
    decisionOfCode staged now = decideSpecAmended staged now := by
  have hmaxw : (0 : Int) < ARTICLE_MAX_WAIT_SECONDS := by decide
  have hsa : ("score" : String) ≠ "age" := by decide
  have hca : ("comments" : String) ≠ "age" := by decide
  unfold decisionOfCode decideSpecAmended _should_graduate
  by_cases h1 : staged.article.hn_score.getD 0 ≥ ARTICLE_MIN_POINTS
  · simp [h1, hsa]
  · by_cases h2 : staged.article.hn_comment_count.getD 0 ≥ ARTICLE_MIN_COMMENTS
    · simp [h1, h2, hca]
    · cases hts : staged.article.hn_posted_ts with
      | none => simp [h1, h2, hts]
      | some ts =>
        by_cases hz : ts ≠ 0
        · by_cases h3 : max 0 (now - ts) ≥ ARTICLE_MAX_WAIT_SECONDS
          · have h3' : now - ts ≥ ARTICLE_MAX_WAIT_SECONDS :=
              (max_zero_ge_iff hmaxw).1 h3
            by_cases h4 : staged.article.hn_score.getD 0 <
                ARTICLE_AGE_FLOOR_POINTS ∧
                staged.article.hn_comment_count.getD 0 <
                ARTICLE_AGE_FLOOR_COMMENTS
            · simp [h1, h2, hts, hz, h3, h3', h4]
            · simp [h1, h2, hts, hz, h3, h3', h4]
          · have h3' : ¬ now - ts ≥ ARTICLE_MAX_WAIT_SECONDS :=
              fun hc => h3 ((max_zero_ge_iff hmaxw).2 hc)
            simp [h1, h2, hts, hz, h3, h3']
        · simp [h1, h2, hts, hz]

/-- C2 (counterexample): the claim's reference policy reads "when postedAt
is known"; the code tests Python truthiness (`if article.hn_posted_ts:`),
so a record whose posted timestamp is present but zero is treated as having
unknown age. With score 0, comments 0, postedAt = 0 and now =
ARTICLE_MAX_WAIT_SECONDS the reference policy discards while the code
keeps the record staged. -/
theorem graduation_zero_ts_cex :
    decisionOfCode stagedZeroTs 18000 = Decision.keep
  ∧ decideSpec stagedZeroTs 18000 = Decision.discard
  ∧ decisionOfCode stagedZeroTs 18000 ≠ decideSpec stagedZeroTs 18000 :=
  ⟨by decide, by decide, by decide⟩

/-- C2 (amended): the composite decision (the composition of
_should_graduate with the age-floor branch of _publish_graduates) equals
the reference policy amended so that the age rule fires only when postedAt
is known AND nonzero; and score- or comment-triggered graduations never
discard. -/
theorem graduation_policy_matches_amended_spec (staged : StagedArticle)
    (now : Int) :
    decisionOfCode staged now = decideSpecAmended staged now
  ∧ ((_should_graduate staged now).2.1 = some "score" →
      decisionOfCode staged now ≠ Decision.discard)
  ∧ ((_should_graduate staged now).2.1 = some "comments" →
      decisionOfCode staged now ≠ Decision.discard) := by
  refine ⟨decisionOfCode_eq_amended staged now, ?_, ?_⟩
  · intro h
    rw [decisionOfCode_publish_of_reason_ne_age staged now "score" h (by decide)]
    simp
  · intro h
    rw [decisionOfCode_publish_of_reason_ne_age staged now "comments" h (by decide)]
    simp

/-- C2 (witness): the amended policy theorem applied to a record with score
60 at now = 0: the decision matches the spec policy and is not a discard. -/
theorem graduation_policy_matches_amended_spec_witness :
    decisionOfCode stagedEarly 0 = decideSpecAmended stagedEarly 0
  ∧ decisionOfCode stagedEarly 0 ≠ Decision.discard :=
  ⟨(graduation_policy_matches_amended_spec stagedEarly 0).1,
   (graduation_policy_matches_amended_spec stagedEarly 0).2.1 (by decide)⟩

/-! ## Claim C4 — publish failure leaves the record staged; success marks -/

/-- C4: for a graduate that reaches the publish branch (not the age-floor
discard): if the publish side effect raises, the store state is unchanged
(the record stays staged for a later tick) and no markPublished happens;
if the publish call returns, mark_published runs and the id lands in the
published set — quantified over every pending-store oracle, i.e.
regardless of whether store_pending_post succeeded or failed. -/
theorem publish_failure_retries_success_marks (cfg : Config) (eff : Effects)
    (now : Int) (st : SysState) (g : Graduate)
    (hfloor : ¬(g.reason = "age" ∧
        g.extras.score < ARTICLE_AGE_FLOOR_POINTS ∧
        g.extras.comments < ARTICLE_AGE_FLOOR_COMMENTS)) :
    (eff.publishResult g.staged.article = PublishResult.raiseExc →
        (processGraduate cfg eff now st g).1 = st
      ∧ Event.markedPublished g.staged.article.article_id ∉
          (processGraduate cfg eff now st g).2)
  ∧ (eff.publishResult g.staged.article ≠ PublishResult.raiseExc →
        Event.markedPublished g.staged.article.article_id ∈
          (processGraduate cfg eff now st g).2
      ∧ g.staged.article.article_id ∈
          (processGraduate cfg eff now st g).1.staging.published) := by
  unfold processGraduate graduateStep
  rw [if_neg hfloor]
  constructor
  · intro hp
    rw [hp]
    exact ⟨rfl, by simp⟩
  · intro hp
    cases hres : eff.publishResult g.staged.article with
    | raiseExc => exact absurd hres hp
    | okDict mid lc =>
      cases mid with
      | some cp =>
        by_cases hstore : eff.storePendingOk cp g.staged.article
        · simp [hres, hstore, mark_published, mem_sadd]
        · simp [hres, hstore, mark_published, mem_sadd]
      | none => simp [hres, mark_published, mem_sadd]
    | okOther => simp [hres, mark_published, mem_sadd]

/-- C4 (witness): with an always-raising publish oracle, processing the
score graduate leaves the system state untouched. -/
theorem publish_failure_retries_success_marks_witness :
    (processGraduate cfg0 effRaise 0 sys0 gradEarly).1 = sys0 :=
  ((publish_failure_retries_success_marks cfg0 effRaise 0 sys0 gradEarly
    (by decide)).1 rfl).1

/-! ## Claim C5 — graduates are committed in staged_at order -/

theorem publish_graduates_trace (cfg : Config) (eff : Effects) (now : Int)
    (st : SysState) (gs : List Graduate) :
    (_publish_graduates cfg eff now st gs).2 =
      (gs.map (fun g => (graduateStep cfg eff now g).2)).flatten := by
  induction gs generalizing st with
  | nil => rfl
  | cons g rest ih =>
    simp [_publish_graduates, processGraduate, ih]

theorem sorted_split_of_lt {l : List Graduate}
    (hs : List.Pairwise gradLE l) {A B : Graduate}
    (hA : A ∈ l) (hB : B ∈ l)
    (hlt : A.staged.staged_at < B.staged.staged_at) :
    ∃ l1 l2 l3, l = l1 ++ A :: (l2 ++ B :: l3) := by
  induction l with
  | nil => cases hA
  | cons x xs ih =>
    obtain ⟨hx, hxs⟩ := List.pairwise_cons.1 hs
    rcases List.mem_cons.1 hA with rfl | hA2
    · have hB2 : B ∈ xs := by
        rcases List.mem_cons.1 hB with heq | h
        · rw [heq] at hlt
          exact absurd hlt (lt_irrefl _)
        · exact h
      obtain ⟨l2, l3, hxx⟩ := List.append_of_mem hB2
      exact ⟨[], l2, l3, by simp [hxx]⟩
    · have hB2 : B ∈ xs := by
        rcases List.mem_cons.1 hB with rfl | h
        · exact absurd (hx A hA2) (not_le.mpr hlt)
        · exact h
      obtain ⟨l1, l2, l3, hxx⟩ := ih hxs hA2 hB2
      exact ⟨x :: l1, l2, l3, by simp [hxx]⟩

/-- C5: whenever two records A and B both graduate in the same tick and A
was staged strictly earlier, the sorted graduate list processed by
_publish_graduates places A before B, so the full event trace of the tick's
publish phase contains A's events as a block strictly before B's events,
for every starting store state and every side-effect oracle. -/
theorem graduates_processed_in_staged_at_order (cfg : Config) (eff : Effects)
    (now : Int) (staged_list : List StagedArticle) (A B : Graduate)
    (hA : A ∈ collectGraduates staged_list now)
    (hB : B ∈ collectGraduates staged_list now)
    (hlt : A.staged.staged_at < B.staged.staged_at) (st : SysState) :
    ∃ e1 e2 e3,
      (publish_latest_graduation cfg eff now st staged_list).2 =
        e1 ++ (graduateStep cfg eff now A).2 ++ e2 ++
          (graduateStep cfg eff now B).2 ++ e3 := by
  have hperm := List.perm_insertionSort gradLE (collectGraduates staged_list now)
  have hA2 : A ∈ sortGraduates (collectGraduates staged_list now) :=
    hperm.mem_iff.2 hA
  have hB2 : B ∈ sortGraduates (collectGraduates staged_list now) :=
    hperm.mem_iff.2 hB
  have hsorted : List.Pairwise gradLE
      (sortGraduates (collectGraduates staged_list now)) :=
    List.sorted_insertionSort gradLE (collectGraduates staged_list now)
  obtain ⟨l1, l2, l3, hsplit⟩ := sorted_split_of_lt hsorted hA2 hB2 hlt
  refine ⟨(l1.map (fun g => (graduateStep cfg eff now g).2)).flatten,
          (l2.map (fun g => (graduateStep cfg eff now g).2)).flatten,
          (l3.map (fun g => (graduateStep cfg eff now g).2)).flatten, ?_⟩
  rw [publish_latest_graduation, publish_graduates_trace, hsplit]
  simp [List.map_append, List.flatten_append, List.append_assoc]

/-- C5 (witness): with two score graduates staged at times 1 and 2 and a
succeeding publish oracle, the earlier-staged one is committed first. -/
theorem graduates_processed_in_staged_at_order_witness :
    ∃ e1 e2 e3,
      (publish_latest_graduation cfg0 effOk 0 sys0
          [stagedLate, stagedEarly]).2 =
        e1 ++ (graduateStep cfg0 effOk 0 gradEarly).2 ++ e2 ++
          (graduateStep cfg0 effOk 0 gradLate).2 ++ e3 :=
  graduates_processed_in_staged_at_order cfg0 effOk 0
    [stagedLate, stagedEarly] gradEarly gradLate (by decide) (by decide)
    (by decide) sys0

/-! ## Claim C6 — refresh replaces only engagement fields -/

/-- C6 (counterexample): the claim's "refreshing an id that is not
currently staged is a no-op error" is false on the code:
update_staged_article performs no staging-membership check (`_persist`
writes unconditionally), so refreshing a record whose id is absent from
the staging index re-creates the staging entry and returns the refreshed
record instead of erroring. -/
theorem update_unstaged_restages_cex :
    ("7" ∉ state0.index)
  ∧ ("7" ∈ (update_staged_article state0 stagedSeven none none none none
      (some 9) 9).2.index) :=
  ⟨by decide, by decide⟩

/-- C6 (amended): update_staged_article (called without a replacement
article, as the refresh path does) replaces exactly the three engagement
fields with the newly observed values when present, keeps every other
article field, keeps staged_at, and sets last_checked_ts to the given
(nonzero) now; the write is unconditional: the payload and an index entry
for the id exist afterwards even if the id was not staged before. -/
theorem update_staged_article_frame (s : StagingState)
    (staged : StagedArticle) (score comment_count hn_time : Option Int)
    (checked wall : Int) (updated : StagedArticle) (s2 : StagingState)
    (hc : checked ≠ 0)
    (hupd : updated = (update_staged_article s staged none score
        comment_count hn_time (some checked) wall).1)
    (hs2 : s2 = (update_staged_article s staged none score comment_count
        hn_time (some checked) wall).2) :
    updated.staged_at = staged.staged_at
  ∧ updated.last_checked_ts = checked
  ∧ updated.article.article_id = staged.article.article_id
  ∧ updated.article.title = staged.article.title
  ∧ updated.article.url = staged.article.url
  ∧ updated.article.discussion_url = staged.article.discussion_url
  ∧ updated.article.summary = staged.article.summary
  ∧ updated.article.image_url = staged.article.image_url
  ∧ updated.article.highlights = staged.article.highlights
  ∧ updated.article.top_comments = staged.article.top_comments
  ∧ updated.article.references = staged.article.references
  ∧ updated.article.hn_score = score.or staged.article.hn_score
  ∧ updated.article.hn_comment_count =
      comment_count.or staged.article.hn_comment_count
  ∧ updated.article.hn_posted_ts = hn_time.or staged.article.hn_posted_ts
  ∧ s2.payloads staged.article.article_id =
      some (RawStaged.ok updated.article staged.staged_at checked)
  ∧ staged.article.article_id ∈ s2.index := by
  subst hupd hs2
  cases score <;> cases comment_count <;> cases hn_time <;>
    simp [update_staged_article, _persist, orWallClock, hc, mem_sadd,
      Option.or]

/-- C6 (witness): the frame theorem applied to refreshing stagedSeven in
the empty store at now = 9. -/
theorem update_staged_article_frame_witness :
    (update_staged_article state0 stagedSeven none none none none (some 9)
      9).1.last_checked_ts = 9 :=
  (update_staged_article_frame state0 stagedSeven none none none 9 9
    (update_staged_article state0 stagedSeven none none none none (some 9)
      9).1
    (update_staged_article state0 stagedSeven none none none none (some 9)
      9).2
    (by decide) rfl rfl).2.1

/-! ## Claim C7 — list_staged_articles self-healing -/

/-- C7 (counterexample): a corrupt stored payload is dropped from the
result of list_staged_articles, but — contrary to the claim — its index
entry is NOT pruned: the decode-failure branch only logs and continues,
while only a missing payload triggers the SREM. -/
theorem list_staged_corrupt_not_pruned_cex :
    (list_staged_articles stateCorrupt).1 = []
  ∧ "1" ∈ (list_staged_articles stateCorrupt).2.index :=
  ⟨by decide, by decide⟩

/-- C7 (amended): list_staged_articles is total (no decode failure reaches
the caller); the new index keeps exactly the entries whose payload key is
present, so index entries with a missing payload are pruned and ignored,
while a corrupt or schema-mismatched payload is dropped from the result
(no returned record carries its id, given a well-keyed store) but its
index entry survives the call. -/
theorem list_staged_articles_self_healing (s : StagingState)
    (hk : WellKeyed s) :
    ((list_staged_articles s).2.index =
      s.index.filter (fun id => (s.payloads id).isSome))
  ∧ (∀ id ∈ s.index, s.payloads id = none →
      id ∉ (list_staged_articles s).2.index)
  ∧ (∀ id ∈ s.index,
      (s.payloads id = some RawStaged.corruptJson ∨
        s.payloads id = some RawStaged.badSchema) →
      id ∈ (list_staged_articles s).2.index
    ∧ ∀ r ∈ (list_staged_articles s).1, r.article.article_id ≠ id) := by
  refine ⟨rfl, ?_, ?_⟩
  · intro id hid hnone hmem
    rw [show (list_staged_articles s).2.index =
        s.index.filter (fun id => (s.payloads id).isSome) from rfl] at hmem
    have := (List.mem_filter.1 hmem).2
    rw [hnone] at this
    cases this
  · intro id hid hbad
    constructor
    · rw [show (list_staged_articles s).2.index =
          s.index.filter (fun id => (s.payloads id).isSome) from rfl]
      refine List.mem_filter.2 ⟨hid, ?_⟩
      rcases hbad with h | h <;> simp [h]
    · intro r hr
      have hr2 : r ∈ s.index.filterMap (fun article_id =>
          match s.payloads article_id with
          | some (RawStaged.ok a t l) => some (⟨a, t, l⟩ : StagedArticle)
          | _ => none) := by
        have hperm := List.perm_insertionSort
          (fun x y : StagedArticle => x.staged_at ≤ y.staged_at)
          (s.index.filterMap (fun article_id =>
            match s.payloads article_id with
            | some (RawStaged.ok a t l) => some (⟨a, t, l⟩ : StagedArticle)
            | _ => none))
        exact hperm.mem_iff.1 hr
      obtain ⟨id2, hid2, hok⟩ := List.mem_filterMap.1 hr2
      intro heq
      cases hpay : s.payloads id2 with
      | none => rw [hpay] at hok; cases hok
      | some raw =>
        cases raw with
        | ok a t l =>
          rw [hpay] at hok
          simp only [Option.some.injEq] at hok
          have hkey : a.article_id = id2 := hk id2 a t l hpay
          have hra : r.article = a := by rw [← hok]
          rw [hra, hkey] at heq
          rw [heq] at hpay
          rcases hbad with h | h <;> simp [h] at hpay
        | corruptJson => rw [hpay] at hok; cases hok
        | badSchema => rw [hpay] at hok; cases hok

/-- C7 (witness): on the store with one corrupt payload, the corrupt entry
stays in the index and no returned record carries its id. -/
theorem list_staged_articles_self_healing_witness :
    "1" ∈ (list_staged_articles stateCorrupt).2.index :=
  ((list_staged_articles_self_healing stateCorrupt
    (by
      intro id a t l h
      by_cases hid : id = "1" <;> simp [stateCorrupt, hid] at h)).2.2
    "1" (by decide) (Or.inl (by decide))).1

/-! ## Claim C9 — metric-refresh gating -/

theorem keys_nodup_eq {l : List (String × StagedArticle)}
    (hnd : (l.map Prod.fst).Nodup) {id : String} {a b : StagedArticle}
    (ha : (id, a) ∈ l) (hb : (id, b) ∈ l) : a = b := by
  induction l with
  | nil => cases ha
  | cons x xs ih =>
    rw [List.map_cons, List.nodup_cons] at hnd
    obtain ⟨hx, hxs⟩ := hnd
    rcases List.mem_cons.1 ha with ha1 | ha2
    · rcases List.mem_cons.1 hb with hb1 | hb2
      · have h3 : (id, a) = ((id, b) : String × StagedArticle) :=
          ha1.trans hb1.symm
        exact congrArg Prod.snd h3
      · rw [← ha1] at hx
        exact absurd (List.mem_map.2 ⟨(id, b), hb2, rfl⟩) hx
    · rcases List.mem_cons.1 hb with hb1 | hb2
      · rw [← hb1] at hx
        exact absurd (List.mem_map.2 ⟨(id, a), ha2, rfl⟩) hx
      · exact ih hxs ha2 hb2

/-- C9: a staged record of the tick's staged map is in the refresh batch if
and only if its own last_checked_ts is at least
ARTICLE_METRIC_REFRESH_SECONDS old at `now` — independent of every other
record in the map (the map's keys being unique, as Python dict keys are). -/
theorem refresh_gating (staged_map : List (String × StagedArticle))
    (now : Int) (id : String) (st : StagedArticle)
    (hnd : (staged_map.map Prod.fst).Nodup)
    (hmem : (id, st) ∈ staged_map) :
    id ∈ refresh_ids staged_map now ↔
      now - st.last_checked_ts ≥ ARTICLE_METRIC_REFRESH_SECONDS := by
  unfold refresh_ids
  constructor
  · intro h
    obtain ⟨p, hp, hpe⟩ := List.mem_map.1 h
    have hpf := List.mem_filter.1 hp
    obtain ⟨p1, p2⟩ := p
    simp only at hpe
    subst hpe
    have hst : p2 = st := keys_nodup_eq hnd hpf.1 hmem
    subst hst
    simpa using hpf.2
  · intro h
    refine List.mem_map.2 ⟨(id, st), List.mem_filter.2 ⟨hmem, ?_⟩, rfl⟩
    simpa using h

/-- C9 (witness): a record last checked at 5 is in the refresh batch at
now = 700 (695 ≥ 600). -/
theorem refresh_gating_witness :
    "1" ∈ refresh_ids [("1", stagedSeven)] 700 :=
  (refresh_gating [("1", stagedSeven)] 700 "1" stagedSeven (by decide)
    (by decide)).2 (by decide)

/-! ## Claim C10 — failed reply restores the pending link -/

/-- C10: when the auto-forward handler passes its guards, successfully
claims the pending link for the originating channel post, and then fails
to post the comment bundle, it re-registers the same link under the same
channel-post id (with a fresh TTL), so any later unexpired claim of that
id returns the link again. -/
theorem auto_forward_restores_pending (cfg : Config) (msg : TgMessage)
    (s : PendingState) (now o : Int) (p : PendingPost)
    (h1 : msg.is_automatic_forward = true)
    (h2 : channel_guard_fails cfg msg = false)
    (h3 : resolve_origin msg = some o)
    (h4 : (pop_pending_post s o now).1 = some p) :
    (handle_automatic_forward cfg false msg s now).1 = false
  ∧ (handle_automatic_forward cfg false msg s now).2.entries o =
      some (RawPending.ok p, now + PENDING_REDIS_TTL)
  ∧ ∀ now2, now2 < now + PENDING_REDIS_TTL →
      (pop_pending_post (handle_automatic_forward cfg false msg s now).2 o
        now2).1 = some p := by
  have hpair : pop_pending_post s o now =
      (some p, (pop_pending_post s o now).2) := by
    rw [← h4]
  have hres : handle_automatic_forward cfg false msg s now =
      (false, store_pending_post (pop_pending_post s o now).2 o p.article
        p.discussion_chat_id now) := by
    simp only [handle_automatic_forward, h1, h2, h3]
    rw [hpair]
    simp
  refine ⟨by rw [hres], ?_, ?_⟩
  · rw [hres]
    simp [store_pending_post]
  · intro now2 hlt
    rw [hres]
    simp [pop_pending_post, store_pending_post, not_le.2 hlt]

/-- C10 (witness): claiming post 5 from pstate1, failing the reply, then
claiming again at time 100 returns the same link. -/
theorem auto_forward_restores_pending_witness :
    (handle_automatic_forward cfg0 false msgAuto pstate1 0).1 = false
  ∧ (pop_pending_post
      (handle_automatic_forward cfg0 false msgAuto pstate1 0).2 5 100).1 =
      some pendA :=
  ⟨(auto_forward_restores_pending cfg0 msgAuto pstate1 0 5 pendA (by decide)
      (by decide) (by decide) (by decide)).1,
   (auto_forward_restores_pending cfg0 msgAuto pstate1 0 5 pendA (by decide)
      (by decide) (by decide) (by decide)).2.2 100 (by decide)⟩
